import Mathlib

/-!
Verification of the last-mile delivery analytics pipeline (src/app.py).

The file shallowly embeds the data-handling logic of the application:
column-name normalization and alias resolution (load_and_clean_data,
lines 72-102), the delay threshold and is_late flag (lines 137-141),
the age buckets (lines 143-146, pandas cut with bins [0,25,40,100]),
the sidebar filters (main, lines 499-511), the KPI computations
(lines 516-551), the grouped summaries used by the charts
(create_delay_analyzer, create_vehicle_comparison), the area x category
pivot (create_area_heatmap) and the CSV export block (lines 612-644).

Numeric data is modelled over Q (the spreadsheet holds finite decimals);
the delay threshold, which involves a square root, lives in R.
Pandas NaN results (mean of an empty column, pivot cells with no
records, cut values outside the outermost bins) are modelled as none.
-/

namespace Delivery

/-- Arithmetic mean as pandas computes it on a nonempty column:
sum divided by length.  (On an empty list Lean's division by zero gives
0; pandas would give NaN - the `pandasMean` wrapper below models that.) -/
def mean (xs : List ℚ) : ℚ := xs.sum / xs.length

/-- Sample variance with ddof = 1, the default of pandas `Series.std`:
sum of squared deviations from the mean divided by (n - 1). -/
def sampleVar (xs : List ℚ) : ℚ :=
  (xs.map (fun x => (x - mean xs) ^ 2)).sum / ((xs.length : ℚ) - 1)

/-- The late-delivery threshold of load_and_clean_data lines 137-140:
`threshold = mean_time + std_time`, i.e. mean plus one sample standard
deviation of delivery_time. -/
noncomputable def delayThreshold (xs : List ℚ) : ℝ :=
  (mean xs : ℝ) + Real.sqrt (sampleVar xs)

/-- pandas median (linear interpolation reduces to the midpoint of the
two central order statistics for even length): used here to state the
spec's claimed default policy for the threshold. -/
def median (xs : List ℚ) : ℚ :=
  let s := xs.insertionSort (· ≤ ·)
  let n := xs.length
  if n % 2 = 1 then s.getD (n / 2) 0
  else (s.getD (n / 2 - 1) 0 + s.getD (n / 2) 0) / 2

open Classical in
/-- Line 141: `df['is_late'] = (df['delivery_time'] > threshold).astype(int)`.
The comparison is strict; the flag is the integer 1 or 0. -/
noncomputable def isLateFlag (tau : ℝ) (t : ℚ) : ℤ :=
  if (t : ℝ) > tau then 1 else 0

/-- Lines 143-146: `pd.cut(df['agent_age'], bins=[0,25,40,100],
labels=['<25','25-40','40+'])`.  pandas cut uses right-closed,
left-open intervals (0,25], (25,40], (40,100]; values outside (0,100]
become NaN, modelled as `none`. -/
def age_group (a : ℚ) : Option String :=
  if 0 < a ∧ a ≤ 25 then some "<25"
  else if 25 < a ∧ a ≤ 40 then some "25-40"
  else if 40 < a ∧ a ≤ 100 then some "40+"
  else none

/-! ### Schema resolution (load_and_clean_data lines 72-102) -/

/-- Python `s.strip()` restricted to the space character (the headers in
play contain no other whitespace). -/
def trimSpaces (s : String) : String :=
  String.mk (((s.data.dropWhile (· = ' ')).reverse.dropWhile (· = ' ')).reverse)

/-- `.str.replace(' ', '_')` with a one-character literal pattern:
replace every space by an underscore. -/
def replaceSpaces (s : String) : String :=
  String.mk (s.data.map (fun c => if c = ' ' then '_' else c))

/-- Line 73: `df.columns.str.strip().str.replace(' ', '_')`. -/
def normalizeHeader (s : String) : String := replaceSpaces (trimSpaces s)

/-- Lines 76-85: the alias table, in source order.  Matching is exact
(case-sensitive) membership in the variation list. -/
def column_mapping : List (String × List String) :=
  [("delivery_time", ["Delivery_Time", "delivery_time", "Time", "DeliveryTime"]),
   ("traffic", ["Traffic", "traffic", "Traffic_Condition"]),
   ("weather", ["Weather", "weather", "Weather_Condition"]),
   ("vehicle", ["Vehicle", "vehicle", "Vehicle_Type"]),
   ("agent_age", ["Agent_Age", "agent_age", "Age"]),
   ("agent_rating", ["Agent_Rating", "agent_rating", "Rating"]),
   ("area", ["Area", "area", "Location", "Region"]),
   ("category", ["Category", "category", "Product_Category"])]

/-- Lines 95-96. -/
def required_cols : List String :=
  ["delivery_time", "traffic", "weather", "vehicle",
   "agent_age", "agent_rating", "area", "category"]

/-- Lines 88-92: for one canonical field, find the first column whose
name is in the variation list and rename every column of that name to
the canonical name. -/
def renameStep (hs : List String) (p : String × List String) : List String :=
  match hs.find? (fun h => h ∈ p.2) with
  | some c => hs.map (fun h => if h = c then p.1 else h)
  | none => hs

/-- The full renaming pass over all canonical fields, in table order. -/
def applyMapping (hs : List String) : List String :=
  column_mapping.foldl renameStep hs

/-- Header list after normalization and renaming. -/
def resolveColumns (raw : List String) : List String :=
  applyMapping (raw.map normalizeHeader)

/-- Line 98: `[col for col in required_cols if col not in df.columns]`. -/
def missingCols (raw : List String) : List String :=
  required_cols.filter (fun c => c ∉ resolveColumns raw)

/-- Lines 98-102: if any required column is missing, the load fails
(st.error with the missing list and the available headers, then
st.stop); otherwise it continues with the resolved header list. -/
def loadSchema (raw : List String) : Except (List String × List String) (List String) :=
  if (missingCols raw).isEmpty then Except.ok (resolveColumns raw)
  else Except.error (missingCols raw, resolveColumns raw)

/-- ASCII lower-casing of one character. -/
def lowerChar (c : Char) : Char :=
  if 'A' ≤ c ∧ c ≤ 'Z' then Char.ofNat (c.toNat + 32) else c

/-- Case normalization, used only to state the spec's claimed
case-insensitive matching (the code itself never lowercases headers). -/
def caseNorm (s : String) : String := String.mk (s.data.map lowerChar)

/-! ### Records, filters, aggregation -/

/-- One cleaned-and-derived row, with the canonical numeric and
categorical fields plus the derived integer is_late flag. -/
structure DRecord where
  delivery_time : ℚ
  traffic : String
  weather : String
  vehicle : String
  agent_age : ℚ
  agent_rating : ℚ
  area : String
  category : String
  is_late : ℤ
deriving DecidableEq

/-- The five sidebar multiselect values (main, lines 457-495): one
allowed-value list per categorical dimension. -/
structure FilterSel where
  weather : List String
  traffic : List String
  vehicle : List String
  area : List String
  category : List String
deriving DecidableEq

/-- One step of lines 502-511: `if selected_x:` - a Python empty list is
falsy, so an empty selection skips the filter entirely; a nonempty one
keeps the rows whose value is in the selection. -/
def filterStep (sel : List String) (get : DRecord → String) (df : List DRecord) : List DRecord :=
  if sel.isEmpty then df else df.filter (fun r => get r ∈ sel)

/-- Lines 500-511: the five filters applied in sequence
(weather, traffic, vehicle, area, category). -/
def applyFilters (s : FilterSel) (df : List DRecord) : List DRecord :=
  filterStep s.category (fun r => r.category)
    (filterStep s.area (fun r => r.area)
      (filterStep s.vehicle (fun r => r.vehicle)
        (filterStep s.traffic (fun r => r.traffic)
          (filterStep s.weather (fun r => r.weather) df))))

/-- One row of a per-dimension aggregate: key value, mean delivery time,
delay rate in percent. -/
structure SummaryRow where
  key : String
  avg_time : ℚ
  late_pct : ℚ
deriving DecidableEq

/-- pandas `groupby` sorts the group keys ascending (sort=True is the
default): the distinct values of the dimension, in ascending order. -/
def groupKeys (get : DRecord → String) (df : List DRecord) : List String :=
  ((df.map get).dedup).insertionSort (· ≤ ·)

/-- The aggregate row of one group key: mean delivery time and mean
is_late scaled by 100 over the rows with that key. -/
def summaryRowFor (get : DRecord → String) (df : List DRecord) (k : String) : SummaryRow :=
  { key := k
    avg_time := mean ((df.filter (fun r => get r = k)).map (fun r => r.delivery_time))
    late_pct := mean ((df.filter (fun r => get r = k)).map (fun r => (r.is_late : ℚ))) * 100 }

/-- `df.groupby(dim).agg({'delivery_time': 'mean', 'is_late': 'mean'})`
with the late percentage scaled by 100, as in create_delay_analyzer and
the export block. -/
def summarize (get : DRecord → String) (df : List DRecord) : List SummaryRow :=
  (groupKeys get df).map (summaryRowFor get df)

/-- Descending order on mean delivery time (sort_values ascending=False). -/
def descTime (a b : SummaryRow) : Prop := b.avg_time ≤ a.avg_time

/-- Ascending order on mean delivery time (sort_values default). -/
def ascTime (a b : SummaryRow) : Prop := a.avg_time ≤ b.avg_time

instance : DecidableRel descTime :=
  fun a b => inferInstanceAs (Decidable (b.avg_time ≤ a.avg_time))

instance : DecidableRel ascTime :=
  fun a b => inferInstanceAs (Decidable (a.avg_time ≤ b.avg_time))

instance : IsTotal SummaryRow descTime :=
  ⟨fun a b => le_total b.avg_time a.avg_time⟩

instance : IsTrans SummaryRow descTime :=
  ⟨fun _ _ _ h1 h2 => le_trans h2 h1⟩

instance : IsTotal SummaryRow ascTime :=
  ⟨fun a b => le_total a.avg_time b.avg_time⟩

instance : IsTrans SummaryRow ascTime :=
  ⟨fun _ _ _ h1 h2 => le_trans h1 h2⟩

/-- create_delay_analyzer lines 172-178: weather aggregate, sorted by
mean delivery time descending.  (pandas sort_values uses an unstable
quicksort; the model uses a stable insertion sort, which agrees with it
whenever the sort keys are distinct.) -/
def weatherSummary (df : List DRecord) : List SummaryRow :=
  (summarize (fun r => r.weather) df).insertionSort descTime

/-- create_delay_analyzer lines 181-186: traffic aggregate, sorted by
mean delivery time descending. -/
def trafficSummary (df : List DRecord) : List SummaryRow :=
  (summarize (fun r => r.traffic) df).insertionSort descTime

/-- create_vehicle_comparison lines 256-262: vehicle aggregate, sorted
by mean delivery time ascending. -/
def vehicleSummary (df : List DRecord) : List SummaryRow :=
  (summarize (fun r => r.vehicle) df).insertionSort ascTime

/-! ### Area x category pivot (create_area_heatmap lines 318-348) -/

/-- The records of one (area, category) pair. -/
def pairSub (df : List DRecord) (a c : String) : List DRecord :=
  df.filter (fun r => r.area = a ∧ r.category = c)

/-- The (area, category) pairs that occur in the data. -/
def pivotPairs (df : List DRecord) : List (String × String) :=
  (df.map (fun r => (r.area, r.category))).dedup

/-- `pivot_table(values='delivery_time', index='area',
columns='category', aggfunc='mean')`: a cell holds the mean
delivery_time of the rows with that area and category; a pair with no
rows yields NaN (and a pair whose area or category never occurs has no
cell at all) - both modelled as `none`. -/
def pivotCell (df : List DRecord) (a c : String) : Option ℚ :=
  if (a, c) ∈ pivotPairs df then
    some (mean ((pairSub df a c).map (fun r => r.delivery_time)))
  else none

/-- The cell formula the spec claims for the pivot: mean of
delay_flag times 100 (delay rate percent) over the pair's records.
Stated only to compare the claim with the code. -/
def claimedPivotCell (df : List DRecord) (a c : String) : ℚ :=
  mean ((pairSub df a c).map (fun r => (r.is_late : ℚ))) * 100

/-! ### KPIs (main lines 516-551) -/

/-- pandas `Series.mean`: NaN (here `none`) on an empty column. -/
def pandasMean (xs : List ℚ) : Option ℚ :=
  if xs.isEmpty then none else some (mean xs)

/-- Line 519: `df_filtered['delivery_time'].mean()`. -/
def avgTimeKpi (df : List DRecord) : Option ℚ :=
  pandasMean (df.map (fun r => r.delivery_time))

/-- Line 527: `df_filtered['is_late'].mean() * 100`. -/
def latePctKpi (df : List DRecord) : Option ℚ :=
  (pandasMean (df.map (fun r => (r.is_late : ℚ)))).map (fun q => q * 100)

/-- Line 544: `df_filtered['agent_rating'].mean()`. -/
def ratingKpi (df : List DRecord) : Option ℚ :=
  pandasMean (df.map (fun r => r.agent_rating))

/-- One-decimal fixed-point rendering of a rational, modelling Python's
`f"{x:.1f}"` on the nonnegative values that occur here (Python rounds
half to even; the corner case plays no role in the claims). -/
def fmt1 (q : ℚ) : String :=
  let n : ℤ := round (q * 10)
  toString (n / 10) ++ "." ++ toString ((n % 10).natAbs)

/-- Line 520-523: the displayed "Average Delivery Time" metric value,
`f"{avg_time:.1f} min"`.  Python formats a float NaN as "nan", so an
empty filter result renders as "nan min". -/
def avgTimeText (df : List DRecord) : String :=
  (match avgTimeKpi df with
   | none => "nan"
   | some q => fmt1 q) ++ " min"

/-! ### Export (main lines 612-644) -/

/-- The column lists of the five per-dimension frames built in
`export_data`, each `[dim, 'avg_time', 'late_pct']` after reset_index
and rename, in dict insertion order. -/
def subFrameCols : List (List String) :=
  [["traffic", "avg_time", "late_pct"],
   ["weather", "avg_time", "late_pct"],
   ["vehicle", "avg_time", "late_pct"],
   ["area", "avg_time", "late_pct"],
   ["category", "avg_time", "late_pct"]]

/-- `pd.concat` on frames with differing columns (outer join,
sort=False): the union of the column lists in order of first
appearance. -/
def concatCols (ls : List (List String)) : List String :=
  ls.foldl (fun acc cs => acc ++ cs.filter (fun c => c ∉ acc)) []

/-- The header of `all_df.to_csv(index=False)`: reset_index on the
concat result prepends the named level 'group' and the unnamed second
index level, which pandas calls 'level_1'. -/
def exportColumns : List String :=
  "group" :: "level_1" :: concatCols subFrameCols

/-- The exported data rows: for each dimension in the fixed dict order
traffic, weather, vehicle, area, category, one row per group key,
tagged with the group label. -/
def exportRows (df : List DRecord) : List (String × SummaryRow) :=
  (summarize (fun r => r.traffic) df).map (fun r => ("by_traffic", r)) ++
  (summarize (fun r => r.weather) df).map (fun r => ("by_weather", r)) ++
  (summarize (fun r => r.vehicle) df).map (fun r => ("by_vehicle", r)) ++
  (summarize (fun r => r.area) df).map (fun r => ("by_area", r)) ++
  (summarize (fun r => r.category) df).map (fun r => ("by_category", r))

/-! ### Concrete datasets used in counterexamples and witnesses -/

/-- A single fully-populated record. -/
def r0 : DRecord :=
  ⟨30, "High", "Sunny", "Bike", 30, 4, "Urban", "Food", 0⟩

def cDf3 : List DRecord := [r0]

/-- All five selections explicitly emptied. -/
def cSel3 : FilterSel := ⟨[], [], [], [], []⟩

def cDf5 : List DRecord :=
  [⟨10, "High", "Sunny", "Bike", 30, 4, "Urban", "Food", 0⟩,
   ⟨20, "Low", "Rainy", "Bike", 30, 4, "Urban", "Food", 0⟩]

/-- Keeps only Sunny records, then only Low-traffic records: the two
constraints are disjoint, so the result is empty. -/
def cSel5 : FilterSel := ⟨["Sunny"], ["Low"], ["Bike"], ["Urban"], ["Food"]⟩

def cDf6 : List DRecord :=
  [⟨10, "T", "A", "V", 30, 4, "R", "C", 1⟩,
   ⟨20, "T", "B", "V", 30, 4, "R", "C", 0⟩]

def cDf6r : List DRecord :=
  [⟨20, "T", "B", "V", 30, 4, "R", "C", 0⟩,
   ⟨10, "T", "A", "V", 30, 4, "R", "C", 1⟩]

def pDf7 : List DRecord :=
  [⟨10, "T", "W", "V", 30, 4, "A", "X", 1⟩,
   ⟨50, "T", "W", "V", 30, 4, "B", "Y", 0⟩]

/-- Raw headers whose delivery-time column differs from every supported
alias only by letter case. -/
def raw9 : List String :=
  ["DELIVERY TIME", "Traffic", "Weather", "Vehicle",
   "Agent Age", "Agent_Rating", "Area", "Category"]

/-- Raw headers that hit the alias table exactly. -/
def rawOk : List String :=
  ["Time", "Traffic", "Weather", "Vehicle",
   "Age", "Rating", "Area", "Category"]

/-! ## Theorems -/

/-- The sample variance is a sum of squares over a nonnegative
denominator (or 0/(-1) = 0 for the empty list), hence nonnegative. -/
lemma sampleVar_nonneg (ts : List ℚ) : 0 ≤ sampleVar ts := by
  unfold sampleVar
  rcases ts with _ | ⟨a, l⟩
  · simp
  · apply div_nonneg
    · apply List.sum_nonneg
      intro x hx
      obtain ⟨y, -, rfl⟩ := List.mem_map.mp hx
      positivity
    · simp only [List.length_cons]
      push_cast
      linarith [Nat.cast_nonneg (α := ℚ) l.length]

lemma mean_eg : mean ([10, 20, 30] : List ℚ) = 20 := by
  norm_num [mean, List.sum_cons, List.sum_nil]

lemma sampleVar_eg : sampleVar ([10, 20, 30] : List ℚ) = 100 := by
  norm_num [sampleVar, mean_eg, List.sum_cons, List.sum_nil]

lemma median_eg : median ([10, 20, 30] : List ℚ) = 20 := by decide

lemma delayThreshold_eg : delayThreshold ([10, 20, 30] : List ℚ) = 30 := by
  unfold delayThreshold
  rw [mean_eg, sampleVar_eg]
  rw [show ((100 : ℚ) : ℝ) = (10 : ℝ) ^ 2 by norm_num,
    Real.sqrt_sq (by norm_num : (0 : ℝ) ≤ 10)]
  norm_num

/-- Claim C1, counterexample: on the dataset with delivery times
[10, 20, 30] the code's threshold is mean + one sample standard
deviation = 20 + 10 = 30, while the median is 20 - the default
threshold is not the median (the code accepts no delay policy at all
and always uses mean + std). -/
theorem C1_counterexample :
    delayThreshold ([10, 20, 30] : List ℚ) ≠ ((median ([10, 20, 30] : List ℚ) : ℚ) : ℝ) := by
  rw [delayThreshold_eg, median_eg]
  norm_num

/-- Claim C1, amended: the caller can supply no delay policy - the
threshold is always mean plus one sample standard deviation of
delivery_time: it is at least the mean, and its offset from the mean
squares to the sample variance. -/
theorem C1_theorem : ∀ ts : List ℚ,
    (mean ts : ℝ) ≤ delayThreshold ts ∧
    (delayThreshold ts - (mean ts : ℝ)) ^ 2 = ((sampleVar ts : ℚ) : ℝ) := by
  intro ts
  constructor
  · have h := Real.sqrt_nonneg ((sampleVar ts : ℚ) : ℝ)
    unfold delayThreshold
    linarith
  · unfold delayThreshold
    rw [add_sub_cancel_left, Real.sq_sqrt]
    exact_mod_cast sampleVar_nonneg ts

/-- Claim C2: for every delivery time in the dataset, the derived
is_late flag is 1 exactly when the time strictly exceeds the active
threshold, and a time exactly equal to the threshold gets flag 0. -/
theorem C2_theorem : ∀ (ts : List ℚ) (t : ℚ), t ∈ ts →
    (isLateFlag (delayThreshold ts) t = 1 ↔ (t : ℝ) > delayThreshold ts) ∧
    ((t : ℝ) = delayThreshold ts → isLateFlag (delayThreshold ts) t = 0) := by
  intro ts t _
  unfold isLateFlag
  constructor
  · split_ifs with h
    · simp [h]
    · simp [h]
  · intro he
    rw [if_neg]
    rw [he]
    exact lt_irrefl _

/-- Witness for C2: on [10, 20, 30] the threshold is exactly 30, and
the record with delivery time 30 is not flagged late. -/
theorem C2_witness :
    (30 : ℚ) ∈ ([10, 20, 30] : List ℚ) ∧
    isLateFlag (delayThreshold ([10, 20, 30] : List ℚ)) 30 = 0 :=
  ⟨by simp, (C2_theorem [10, 20, 30] 30 (by simp)).2
      (by rw [delayThreshold_eg]; norm_num)⟩

/-- Claim C3, counterexample: with every allowed-set explicitly empty
the Filter Engine does NOT return the empty dataset - the Python
truthiness test `if selected_weather:` skips an empty selection, so the
one-record dataset passes through unchanged. -/
theorem C3_counterexample :
    cSel3.weather = [] ∧ applyFilters cSel3 cDf3 = cDf3 ∧ cDf3 ≠ [] :=
  ⟨rfl, rfl, by decide⟩

/-- Claim C3, amended: an explicitly empty allowed-set for a dimension
imposes no constraint at all - the dimension's filter step returns the
dataset unchanged, and a filter specification with all five selections
empty returns every record. -/
theorem C3_theorem :
    (∀ (get : DRecord → String) (df : List DRecord), filterStep [] get df = df) ∧
    (∀ df : List DRecord, applyFilters ⟨[], [], [], [], []⟩ df = df) :=
  ⟨fun _ _ => rfl, fun _ => rfl⟩

/-- Claim C4, counterexample: an agent_age of exactly 25 falls into the
LOWER bucket `<25` (pandas cut intervals are right-closed), and age 0
receives no bucket at all, so `<25` does not cover [0,25). -/
theorem C4_counterexample :
    age_group 25 = some "<25" ∧ age_group 0 = none := by
  constructor <;> decide

/-- Claim C4, amended: age_group has exactly three labels, assigned by
left-open right-closed intervals: `<25` on (0,25], `25-40` on (25,40],
`40+` on (40,100]; a boundary age belongs to the lower-labelled bucket
and ages outside (0,100] receive no label. -/
theorem C4_theorem : ∀ a : ℚ,
    (age_group a = some "<25" ↔ 0 < a ∧ a ≤ 25) ∧
    (age_group a = some "25-40" ↔ 25 < a ∧ a ≤ 40) ∧
    (age_group a = some "40+" ↔ 40 < a ∧ a ≤ 100) ∧
    (∀ s, age_group a = some s → s = "<25" ∨ s = "25-40" ∨ s = "40+") := by
  intro a
  unfold age_group
  split_ifs with h1 h2 h3
  · exact ⟨by simp [h1], by simp; intro h; linarith [h1.2],
      by simp; intro h; linarith [h1.2], by simp⟩
  · exact ⟨by simp; intro h; exact h2.1,
      by simp [h2], by simp; intro h; linarith [h2.2], by simp⟩
  · exact ⟨by simp; intro h; linarith [h3.1],
      by simp; intro h; exact h3.1,
      by simp [h3], by simp⟩
  · exact ⟨by simp; intro h'; exact not_le.mp (fun hle => h1 ⟨h', hle⟩),
      by simp; intro h'; exact not_le.mp (fun hle => h2 ⟨h', hle⟩),
      by simp; intro h'; exact not_le.mp (fun hle => h3 ⟨h', hle⟩), by simp⟩

/-- Witness for C4: age 30 lands in the middle bucket. -/
theorem C4_witness : age_group 30 = some "25-40" :=
  (C4_theorem 30).2.1.mpr ⟨by norm_num, by norm_num⟩

/-- Claim C10: an agent_age that is at most 0 or above 100 receives no
age bucket - pandas cut leaves values outside the outermost bin edges
as NaN, so age_group is not total over cleaned records. -/
theorem C10_theorem : ∀ a : ℚ, (a ≤ 0 ∨ 100 < a) → age_group a = none := by
  intro a h
  unfold age_group
  split_ifs with h1 h2 h3
  · rcases h with h | h
    · linarith [h1.1]
    · linarith [h1.2]
  · rcases h with h | h
    · linarith [h2.1]
    · linarith [h2.2]
  · rcases h with h | h
    · linarith [h3.1]
    · linarith [h3.2]
  · rfl

/-- Witness for C10 at the concrete out-of-range age 101. -/
theorem C10_witness :
    ((101 : ℚ) ≤ 0 ∨ 100 < (101 : ℚ)) ∧ age_group 101 = none :=
  ⟨Or.inr (by norm_num), C10_theorem 101 (Or.inr (by norm_num))⟩

/-- Claim C8, counterexample: the exported CSV has no record-count
column `n` and no `delay_rate` column (the rate column is named
late_pct), so the header is not
group,dimension,avg_time,delay_rate,n[,note] and no exported row
carries a count. -/
theorem C8_counterexample :
    "n" ∉ exportColumns ∧ "delay_rate" ∉ exportColumns := by
  constructor <;> decide

/-- Claim C8, amended: the export header is
group,level_1,traffic,avg_time,late_pct,weather,vehicle,area,category
(the outer-join union of the per-dimension columns; no count, no note),
and the rows are one per (dimension, value) pair, dimensions
concatenated in the fixed order traffic, weather, vehicle, area,
category with each dimension contributing one row per distinct value. -/
theorem C8_theorem :
    exportColumns = ["group", "level_1", "traffic", "avg_time", "late_pct",
      "weather", "vehicle", "area", "category"] ∧
    ∀ df : List DRecord, (exportRows df).map Prod.fst =
      List.replicate (groupKeys (fun r => r.traffic) df).length "by_traffic" ++
      List.replicate (groupKeys (fun r => r.weather) df).length "by_weather" ++
      List.replicate (groupKeys (fun r => r.vehicle) df).length "by_vehicle" ++
      List.replicate (groupKeys (fun r => r.area) df).length "by_area" ++
      List.replicate (groupKeys (fun r => r.category) df).length "by_category" := by
  constructor
  · rfl
  · intro df
    simp [exportRows, summarize, List.map_map, Function.comp_def, List.map_const']

/-- Claim C5, counterexample: the Sunny-and-Low filter specification
empties the two-record dataset, and the displayed average-time KPI text
is then "nan min" - pandas NaN propagated straight into the user-facing
string, not a "no data" sentinel. -/
theorem C5_counterexample :
    applyFilters cSel5 cDf5 = [] ∧
    avgTimeKpi (applyFilters cSel5 cDf5) = none ∧
    avgTimeText (applyFilters cSel5 cDf5) = "nan min" := by
  refine ⟨by decide, by decide, by decide⟩

/-- Claim C5, amended: on an empty filter result every mean-based KPI
is undefined (pandas NaN, modelled none) and the rendered average-time
text is "nan min" - the code has no "no data" sentinel. -/
theorem C5_theorem : ∀ (s : FilterSel) (df : List DRecord),
    applyFilters s df = [] →
    avgTimeKpi (applyFilters s df) = none ∧
    latePctKpi (applyFilters s df) = none ∧
    ratingKpi (applyFilters s df) = none ∧
    avgTimeText (applyFilters s df) = "nan min" := by
  intro s df h
  rw [h]
  exact ⟨rfl, rfl, rfl, rfl⟩

/-- Witness for C5 at the concrete emptying filter. -/
theorem C5_witness :
    applyFilters cSel5 cDf5 = [] ∧
    (avgTimeKpi (applyFilters cSel5 cDf5) = none ∧
     latePctKpi (applyFilters cSel5 cDf5) = none ∧
     ratingKpi (applyFilters cSel5 cDf5) = none ∧
     avgTimeText (applyFilters cSel5 cDf5) = "nan min") :=
  ⟨by decide, C5_theorem cSel5 cDf5 (by decide)⟩

/-- Means agree on permuted lists. -/
lemma mean_perm {xs ys : List ℚ} (h : xs.Perm ys) : mean xs = mean ys := by
  unfold mean
  rw [h.sum_eq, h.length_eq]

/-- The sorted distinct group keys do not depend on row order. -/
lemma groupKeys_perm (get : DRecord → String) {df1 df2 : List DRecord}
    (h : df1.Perm df2) : groupKeys get df1 = groupKeys get df2 := by
  unfold groupKeys
  refine List.eq_of_perm_of_sorted
    ((List.perm_insertionSort _ _).trans
      (((h.map get).dedup).trans (List.perm_insertionSort _ _).symm))
    (List.sorted_insertionSort _ _) (List.sorted_insertionSort _ _)

lemma summaryRowFor_perm (get : DRecord → String) {df1 df2 : List DRecord}
    (h : df1.Perm df2) (k : String) :
    summaryRowFor get df1 k = summaryRowFor get df2 k := by
  unfold summaryRowFor
  have hf : (df1.filter (fun r => get r = k)).Perm (df2.filter (fun r => get r = k)) :=
    h.filter _
  simp only [SummaryRow.mk.injEq, true_and]
  exact ⟨mean_perm (hf.map _), by rw [mean_perm (hf.map _)]⟩

/-- The whole per-dimension aggregate is row-order independent. -/
lemma summarize_perm (get : DRecord → String) {df1 df2 : List DRecord}
    (h : df1.Perm df2) : summarize get df1 = summarize get df2 := by
  unfold summarize
  rw [groupKeys_perm get h, funext (summaryRowFor_perm get h)]

/-- Evaluation of the weather summary on the concrete two-group
dataset: group "B" (mean 20, rate 0) is listed before group "A"
(mean 10, rate 100) because the sort key is the mean time. -/
lemma weatherSummary_cDf6 :
    weatherSummary cDf6 = [⟨"B", 20, 0⟩, ⟨"A", 10, 100⟩] := by
  have hk : groupKeys (fun r => r.weather) cDf6 = ["A", "B"] := by
    simp [groupKeys, cDf6]
    decide
  have hA : cDf6.filter (fun r => r.weather = "A") =
      [⟨10, "T", "A", "V", 30, 4, "R", "C", 1⟩] := by decide
  have hB : cDf6.filter (fun r => r.weather = "B") =
      [⟨20, "T", "B", "V", 30, 4, "R", "C", 0⟩] := by decide
  have hs : summarize (fun r => r.weather) cDf6 = [⟨"A", 10, 100⟩, ⟨"B", 20, 0⟩] := by
    rw [summarize, hk]
    simp only [List.map_cons, List.map_nil, summaryRowFor, hA, hB]
    norm_num [mean]
  rw [weatherSummary, hs]
  rw [List.insertionSort, List.insertionSort, List.insertionSort, List.orderedInsert]
  rw [List.orderedInsert, if_neg (by norm_num [descTime])]
  rfl

/-- Claim C6, counterexample: on a dataset whose weather group "A" has
delay rate 100 but mean time 10 and whose group "B" has delay rate 0
but mean time 20, the weather summary comes out as [B, A] - it is NOT
ordered by descending delay rate (the code sorts by mean delivery time
only). -/
theorem C6_counterexample :
    ¬ List.Sorted (fun a b : SummaryRow => b.late_pct ≤ a.late_pct) (weatherSummary cDf6) := by
  intro hs
  rw [weatherSummary_cDf6] at hs
  have h1 := (List.sorted_cons.mp hs).1 ⟨"A", 10, 100⟩ (by simp)
  norm_num at h1

/-- Claim C6, amended: the summary rows are ordered by mean delivery
time - descending for the weather and traffic summaries, ascending for
the vehicle summary - with the delay rate playing no role; and the
summaries do not depend on the input row order. -/
theorem C6_theorem : ∀ df1 df2 : List DRecord, df1.Perm df2 →
    (weatherSummary df1 = weatherSummary df2 ∧
     trafficSummary df1 = trafficSummary df2 ∧
     vehicleSummary df1 = vehicleSummary df2) ∧
    List.Sorted descTime (weatherSummary df1) ∧
    List.Sorted descTime (trafficSummary df1) ∧
    List.Sorted ascTime (vehicleSummary df1) := by
  intro df1 df2 h
  refine ⟨⟨?_, ?_, ?_⟩, ?_, ?_, ?_⟩
  · unfold weatherSummary
    rw [summarize_perm _ h]
  · unfold trafficSummary
    rw [summarize_perm _ h]
  · unfold vehicleSummary
    rw [summarize_perm _ h]
  · exact List.sorted_insertionSort _ _
  · exact List.sorted_insertionSort _ _
  · exact List.sorted_insertionSort _ _

/-- Witness for C6 on a two-record dataset and its reversal. -/
theorem C6_witness :
    (weatherSummary cDf6 = weatherSummary cDf6r ∧
     trafficSummary cDf6 = trafficSummary cDf6r ∧
     vehicleSummary cDf6 = vehicleSummary cDf6r) ∧
    List.Sorted descTime (weatherSummary cDf6) ∧
    List.Sorted descTime (trafficSummary cDf6) ∧
    List.Sorted ascTime (vehicleSummary cDf6) :=
  C6_theorem cDf6 cDf6r (by decide)

/-- Claim C7, counterexample: the pivot cell of the (A, X) pair holds
the mean delivery time 10, not the pair's delay rate (which is 100),
and the (A, Y) pair with no records yields an undefined cell (NaN),
not 0. -/
theorem C7_counterexample :
    pivotCell pDf7 "A" "Y" = none ∧
    pivotCell pDf7 "A" "X" = some 10 ∧
    claimedPivotCell pDf7 "A" "X" = 100 ∧ (10 : ℚ) ≠ 100 := by
  have hps : pairSub pDf7 "A" "X" = [⟨10, "T", "W", "V", 30, 4, "A", "X", 1⟩] := by decide
  refine ⟨by decide, ?_, ?_, by norm_num⟩
  · rw [pivotCell, if_pos (by decide), hps]
    norm_num [mean]
  · rw [claimedPivotCell, hps]
    norm_num [mean]

/-- Claim C7, amended: a pivot cell holds the mean delivery_time of
its (area, category) pair's records, and a pair with no records has an
undefined cell (none, pandas NaN), not 0. -/
theorem C7_theorem : ∀ (df : List DRecord) (a c : String),
    (pivotCell df a c = none ↔ pairSub df a c = []) ∧
    (pairSub df a c ≠ [] →
      pivotCell df a c = some (mean ((pairSub df a c).map (fun r => r.delivery_time)))) := by
  intro df a c
  have hmem : (a, c) ∈ pivotPairs df ↔ pairSub df a c ≠ [] := by
    constructor
    · intro h
      rw [pivotPairs, List.mem_dedup] at h
      obtain ⟨r, hr, heq⟩ := List.mem_map.mp h
      have hrp : r ∈ pairSub df a c := by
        rw [pairSub]
        refine List.mem_filter.mpr ⟨hr, ?_⟩
        simp only [Prod.mk.injEq] at heq
        simp [heq.1, heq.2]
      exact List.ne_nil_of_mem hrp
    · intro h
      obtain ⟨r, hr⟩ := List.exists_mem_of_ne_nil _ h
      rw [pairSub] at hr
      obtain ⟨hrdf, hpred⟩ := List.mem_filter.mp hr
      rw [pivotPairs, List.mem_dedup]
      simp only [decide_eq_true_eq] at hpred
      exact List.mem_map.mpr ⟨r, hrdf, by simp [hpred.1, hpred.2]⟩
  constructor
  · rw [pivotCell]
    split_ifs with h
    · simp [hmem.mp h]
    · simp only [true_iff]
      by_contra hn
      exact h (hmem.mpr hn)
  · intro hne
    rw [pivotCell, if_pos (hmem.mpr hne)]

/-- Witness for C7: the empty (A, Y) pair of the concrete dataset has
an undefined pivot cell. -/
theorem C7_witness : pivotCell pDf7 "A" "Y" = none :=
  (C7_theorem pDf7 "A" "Y").1.mpr (by decide)

/-- If some header matches a variation of the field, the rename step
puts the canonical name into the header list. -/
lemma renameStep_mem_self (hs : List String) (p : String × List String)
    (h : ∃ x ∈ hs, x ∈ p.2) : p.1 ∈ renameStep hs p := by
  obtain ⟨x, hx, hxv⟩ := h
  unfold renameStep
  split
  next c hc =>
    exact List.mem_map.mpr ⟨c, List.mem_of_find?_eq_some hc, by simp⟩
  next hnone =>
    rw [List.find?_eq_none] at hnone
    exact absurd (by simpa using hxv) (hnone x hx)

/-- A header outside the field's variation list survives the rename
step untouched. -/
lemma renameStep_preserve (hs : List String) (p : String × List String) (x : String)
    (hx : x ∈ hs) (hxv : x ∉ p.2) : x ∈ renameStep hs p := by
  unfold renameStep
  split
  next c hc =>
    have hcv : c ∈ p.2 := by simpa using List.find?_some hc
    have hne : x ≠ c := fun he => hxv (he ▸ hcv)
    exact List.mem_map.mpr ⟨x, hx, by simp [hne]⟩
  next => exact hx

/-- A match for a different field (with disjoint variations) survives
the rename step. -/
lemma renameStep_exists (hs : List String) (p : String × List String) (vs : List String)
    (hdisj : ∀ v ∈ vs, v ∉ p.2) (h : ∃ x ∈ hs, x ∈ vs) :
    ∃ x ∈ renameStep hs p, x ∈ vs := by
  obtain ⟨x, hx, hxv⟩ := h
  exact ⟨x, renameStep_preserve hs p x hx (hdisj x hxv), hxv⟩

/-- A header outside every remaining variation list survives the whole
renaming pass. -/
lemma foldl_preserve : ∀ (m : List (String × List String)) (hs : List String) (x : String),
    x ∈ hs → (∀ q ∈ m, x ∉ q.2) → x ∈ m.foldl renameStep hs := by
  intro m
  induction m with
  | nil => intro hs x hx _; exact hx
  | cons q rest ih =>
    intro hs x hx hnv
    rw [List.foldl_cons]
    exact ih (renameStep hs q) x
      (renameStep_preserve hs q x hx (hnv q (by simp)))
      (fun q' hq' => hnv q' (by simp [hq']))

/-- If every field has a matching header and the variation lists are
pairwise disjoint (with no canonical name in another field's list),
then after the renaming pass every canonical name is present. -/
lemma foldl_contains : ∀ (m : List (String × List String)) (hs : List String),
    m.Pairwise (fun p q => (∀ v ∈ p.2, v ∉ q.2) ∧ p.1 ∉ q.2) →
    (∀ p ∈ m, ∃ x ∈ hs, x ∈ p.2) →
    ∀ p ∈ m, p.1 ∈ m.foldl renameStep hs := by
  intro m
  induction m with
  | nil => intro hs _ _ p hp; cases hp
  | cons q rest ih =>
    intro hs hdisj hall p hp
    rw [List.foldl_cons]
    rcases List.mem_cons.mp hp with rfl | hp'
    · apply foldl_preserve rest (renameStep hs p) p.1
      · exact renameStep_mem_self hs p (hall p (by simp))
      · intro q' hq'
        exact ((List.pairwise_cons.mp hdisj).1 q' hq').2
    · apply ih (renameStep hs q) (List.pairwise_cons.mp hdisj).2 _ p hp'
      intro p' hp''
      apply renameStep_exists hs q p'.2
      · intro v hv hvq
        exact ((List.pairwise_cons.mp hdisj).1 p' hp'').1 v hvq hv
      · exact hall p' (by simp [hp''])

/-- One rename step cannot introduce a member of `vs` when no current
header is in `vs` and any field whose canonical name lies in `vs` has
all its variations inside `vs`. -/
lemma renameStep_stayOut (hs : List String) (q : String × List String) (vs : List String)
    (h0 : ∀ x ∈ hs, x ∉ vs) (hq : q.1 ∈ vs → ∀ v ∈ q.2, v ∈ vs) :
    ∀ x ∈ renameStep hs q, x ∉ vs := by
  unfold renameStep
  split
  next c hc =>
    intro x hx
    obtain ⟨y, hy, hyx⟩ := List.mem_map.mp hx
    by_cases hyc : y = c
    · subst hyc
      simp only [if_pos rfl] at hyx
      subst hyx
      intro hq1
      have hcv : y ∈ q.2 := by simpa using List.find?_some hc
      exact h0 y hy (hq hq1 y hcv)
    · simp only [if_neg hyc] at hyx
      subst hyx
      exact h0 y hy
  next => exact h0

/-- The whole renaming pass cannot introduce a member of `vs` under the
same side conditions. -/
lemma foldl_stayOut : ∀ (m : List (String × List String)) (hs vs : List String),
    (∀ x ∈ hs, x ∉ vs) →
    (∀ q ∈ m, q.1 ∈ vs → ∀ v ∈ q.2, v ∈ vs) →
    ∀ x ∈ m.foldl renameStep hs, x ∉ vs := by
  intro m
  induction m with
  | nil => intro hs vs h0 _ x hx; exact h0 x hx
  | cons q rest ih =>
    intro hs vs h0 hq x hx
    rw [List.foldl_cons] at hx
    exact ih (renameStep hs q) vs
      (renameStep_stayOut hs q vs h0 (hq q (by simp)))
      (fun q' hq' => hq q' (by simp [hq'])) x hx

/-- The variation lists of distinct fields are disjoint, and no
canonical name occurs in another field's variation list. -/
lemma column_mapping_pairwise :
    column_mapping.Pairwise (fun p q => (∀ v ∈ p.2, v ∉ q.2) ∧ p.1 ∉ q.2) := by decide

/-- Every canonical name is among its own variations. -/
lemma column_mapping_self : ∀ p ∈ column_mapping, p.1 ∈ p.2 := by decide

/-- A canonical name lies in a field's variation list only for that
field itself, whose variations are then trivially contained. -/
lemma column_mapping_closed :
    ∀ p ∈ column_mapping, ∀ q ∈ column_mapping, q.1 ∈ p.2 → ∀ v ∈ q.2, v ∈ p.2 := by decide

lemma required_eq : required_cols = column_mapping.map Prod.fst := by decide

/-- Claim C9, counterexample: the raw header list with "DELIVERY TIME"
contains every required field under a supported alias up to letter
case (after space normalization, "DELIVERY_TIME" equals the alias
"Delivery_Time" case-insensitively), yet the load fails, reporting
delivery_time as missing - alias matching in the code is
case-sensitive, not case-normalized. -/
theorem C9_counterexample :
    (∀ p ∈ column_mapping, ∃ x ∈ raw9.map normalizeHeader,
      ∃ v ∈ p.2, caseNorm x = caseNorm v) ∧
    loadSchema raw9 = Except.error (["delivery_time"],
      ["DELIVERY_TIME", "traffic", "weather", "vehicle",
       "agent_age", "agent_rating", "area", "category"]) := by
  constructor
  · decide
  · rfl

/-- Claim C9, amended: matching is case-sensitive - after strip and
space-to-underscore normalization a header must equal a supported alias
verbatim.  If every required field has such a header, resolution
completes and the load succeeds; if some field has none, the load fails
with an error carrying the missing-field list (which contains that
field) together with the full post-rename header list. -/
theorem C9_theorem : ∀ raw : List String,
    ((∀ p ∈ column_mapping, ∃ x ∈ raw.map normalizeHeader, x ∈ p.2) →
      loadSchema raw = Except.ok (resolveColumns raw)) ∧
    (∀ p ∈ column_mapping, (∀ x ∈ raw.map normalizeHeader, x ∉ p.2) →
      loadSchema raw = Except.error (missingCols raw, resolveColumns raw) ∧
      p.1 ∈ missingCols raw) := by
  intro raw
  constructor
  · intro hall
    have hmem : ∀ p ∈ column_mapping, p.1 ∈ resolveColumns raw :=
      foldl_contains column_mapping (raw.map normalizeHeader) column_mapping_pairwise hall
    have hmiss : missingCols raw = [] := by
      rw [missingCols, List.filter_eq_nil_iff]
      intro c hc
      rw [required_eq] at hc
      obtain ⟨p, hp, rfl⟩ := List.mem_map.mp hc
      simp [hmem p hp]
    simp [loadSchema, hmiss]
  · intro p hp hnone
    have hout : ∀ x ∈ resolveColumns raw, x ∉ p.2 :=
      foldl_stayOut column_mapping (raw.map normalizeHeader) p.2 hnone
        (fun q hq hq1 => column_mapping_closed p hp q hq hq1)
    have hp1 : p.1 ∉ resolveColumns raw :=
      fun hmem => hout p.1 hmem (column_mapping_self p hp)
    have hpmiss : p.1 ∈ missingCols raw := by
      rw [missingCols]
      refine List.mem_filter.mpr ⟨?_, by simpa using hp1⟩
      rw [required_eq]
      exact List.mem_map.mpr ⟨p, hp, rfl⟩
    have hne : (missingCols raw).isEmpty = false := by
      cases hm : missingCols raw with
      | nil => exact absurd (hm ▸ hpmiss) (by simp)
      | cons a l => rfl
    constructor
    · simp [loadSchema, hne]
    · exact hpmiss

/-- Witness for C9: a header list hitting the alias table exactly
resolves successfully. -/
theorem C9_witness : loadSchema rawOk = Except.ok (resolveColumns rawOk) :=
  (C9_theorem rawOk).1 (by decide)

end Delivery
